import Mathlib

/-!
Shallow embedding of the tiny-crm repository (Go, gorm over SQLite),
source file `src/repository.go`, together with theorems settling the
frozen claims about its specification.

Modelling conventions:
* Go `float64` currency amounts (prices, discount, penalty) are modelled
  as `ℚ`; `uint`/`int` ids and quantities as `Nat`/`Int`.
* `uuid.UUID` is modelled as a `Nat`, with `0` playing the role of the
  zero UUID `uuid.UUID{}`; the external generator `uuid.New()` is passed
  in explicitly (its contract — never the zero value, never repeating —
  appears as hypotheses where a claim needs it).
* `time.Time` is modelled by the calendar date part `Date`, the only part
  the claimed code reads (`Format("20060102")`).
* The gorm/SQLite store is a record of tables (`DB`).  Association
  `Preload` fills the association fields of the returned struct from the
  corresponding table, as gorm does.  Declared foreign-key actions
  (`constraint:OnDelete:CASCADE` / `RESTRICT` in the struct tags, created
  by `AutoMigrate` and enforced in the test environment, which runs
  `PRAGMA foreign_keys = ON`) are part of the delete semantics.
* Each primitive gorm write call can fail for external reasons; composite
  repository operations therefore take one `Bool` per primitive write
  (`true` = the call succeeds), so that atomicity claims are about every
  failure schedule.  `db.Transaction` rolls the store back on failure;
  sequential calls outside a transaction do not.
* The back-pointer association fields (`InvoiceLine.Invoice`,
  `RemitInformationLine.RemitInformation`) are never populated nor read
  by the code under claim and are omitted from the Lean structures.
-/

/-- Calendar date, the part of Go `time.Time` the claimed code reads. -/
structure Date where
  Year : Nat
  Month : Nat
  Day : Nat
deriving DecidableEq, Repr

/-- `type Company struct` of src/repository.go. -/
structure Company where
  ID : Nat
  Name : String
  Document : String
  Address : String
deriving DecidableEq, Repr

/-- `type Product struct` of src/repository.go. -/
structure Product where
  ID : Nat
  Name : String
  Description : Option String
  Price : ℚ
deriving DecidableEq, Repr

/-- `type RemitInformationLine struct` of src/repository.go (the unread
back-pointer field `RemitInformation` omitted). -/
structure RemitInformationLine where
  ID : Nat
  Key : String
  Value : String
  RemitInformationID : Nat
deriving DecidableEq, Repr

/-- `type RemitInformation struct` of src/repository.go. -/
structure RemitInformation where
  ID : Nat
  Name : String
  Lines : List RemitInformationLine
deriving DecidableEq, Repr

/-- Alias so that struct fields can carry the exact Go field names even
when a field name coincides with its type's name. -/
abbrev ProductT := Product

/-- Alias, see `ProductT`. -/
abbrev CompanyT := Company

/-- Alias, see `ProductT`. -/
abbrev RemitInformationT := RemitInformation

/-- `type InvoiceLine struct` of src/repository.go (the unread
back-pointer field `Invoice` omitted). -/
structure InvoiceLine where
  ID : Nat
  InvoiceID : Nat
  ProductID : Nat
  Product : ProductT
  Quantity : Int
  Description : Option String
deriving DecidableEq, Repr

/-- `type Invoice struct` of src/repository.go. -/
structure Invoice where
  ID : Nat
  UUID : Nat
  Number : Option Int
  AdditionalInformation : Option String
  Discount : ℚ
  Penalty : ℚ
  Paid : Bool
  IssueDate : Date
  DueDate : Date
  RemitInformationID : Nat
  RemitInformation : RemitInformationT
  CompanyID : Nat
  Company : CompanyT
  ClientID : Nat
  Client : CompanyT
  InvoiceLines : List InvoiceLine
deriving DecidableEq, Repr

/-- `func (il *InvoiceLine) Total() float64`:
`il.Product.Price * float64(il.Quantity)`. -/
def InvoiceLine.Total (il : InvoiceLine) : ℚ :=
  il.Product.Price * (il.Quantity : ℚ)

/-- `func (i *Invoice) SubTotal() float64`: the accumulating loop
`for _, line := range i.InvoiceLines { subTotal += line.Total() }`. -/
def Invoice.SubTotal (i : Invoice) : ℚ :=
  i.InvoiceLines.foldl (fun acc line => acc + line.Total) 0

/-- `func (i *Invoice) Total() float64`:
`i.SubTotal() - i.Discount + i.Penalty`. -/
def Invoice.Total (i : Invoice) : ℚ :=
  i.SubTotal - i.Discount + i.Penalty

/-- Rendering of a UUID value, modelling `uuid.UUID.String()`
abstractly (the claims depend only on which value is rendered, not on
the canonical hex format). -/
def uuidString (u : Nat) : String :=
  toString u

/-- `func (i *Invoice) Identification() string`: Go tests
`i.Number != nil && *i.Number != 0` and returns `strconv.Itoa(*i.Number)`,
otherwise falls through to `i.UUID.String()`. -/
def Invoice.Identification (i : Invoice) : String :=
  match i.Number with
  | some n => if n ≠ 0 then toString n else uuidString i.UUID
  | none => uuidString i.UUID

/-- `func (invoice *Invoice) BeforeCreate(tx *gorm.DB) error`: assign the
externally generated `fresh` UUID only when the stored one is the zero
value. -/
def Invoice.BeforeCreate (fresh : Nat) (invoice : Invoice) : Invoice :=
  if invoice.UUID = 0 then { invoice with UUID := fresh } else invoice

/-- Zero value of `Company`, what gorm leaves in an association field
whose referenced row is absent. -/
def Company.zero : Company := { ID := 0, Name := "", Document := "", Address := "" }

/-- Zero value of `Product`. -/
def Product.zero : Product := { ID := 0, Name := "", Description := none, Price := 0 }

/-- Zero value of `RemitInformation`. -/
def RemitInformation.zero : RemitInformation := { ID := 0, Name := "", Lines := [] }

/-- The relational store behind `Repository` (`tinycrm.db` after
`AutoMigrate`): one table per persisted struct.  Association fields
inside stored rows are not authoritative — reads fill them via
`Preload`, exactly as gorm does.  `nextId` is the auto-increment id
supply for inserted rows (one shared counter; each insert gets a fresh
id, which is all the code relies on). -/
structure DB where
  companies : List Company
  products : List Product
  remits : List RemitInformation
  remitLines : List RemitInformationLine
  invoices : List Invoice
  invoiceLines : List InvoiceLine
  nextId : Nat
deriving DecidableEq, Repr

/-- Message standing for whatever error a failed gorm call reports. -/
def dbErrorMsg : String := "database error"

/-- Message for a delete rejected by a `RESTRICT` foreign-key action. -/
def fkRestrictMsg : String := "FOREIGN KEY constraint failed"

/-- Assign fresh primary keys `startId, startId+1, …` and the owning
invoice id to a batch of lines being inserted, as gorm does when it
saves the `InvoiceLines` association of an invoice. -/
def numberLines (startId invId : Nat) : List InvoiceLine → List InvoiceLine
  | [] => []
  | l :: rest => { l with ID := startId, InvoiceID := invId } :: numberLines (startId + 1) invId rest

/-- Upsert of an invoice row by primary key: replace the row with the
same id, or append when none exists (gorm `Save`). -/
def upsertInvoiceRow (v : Invoice) (rows : List Invoice) : List Invoice :=
  if rows.any (fun r => r.ID == v.ID) then
    rows.map (fun r => if r.ID == v.ID then v else r)
  else rows ++ [v]

/-- `Preload("InvoiceLines.Product")` on one line row: fill the
`Product` association from the products table (zero value when the
referenced row is absent). -/
def preloadLine (db : DB) (l : InvoiceLine) : InvoiceLine :=
  { l with Product := (db.products.find? (fun p => p.ID == l.ProductID)).getD Product.zero }

/-- `func (r *Repository) GetInvoice(id uint)`:
`First` on the invoices table with `Preload` of lines (and their
products), remit information (and its lines) and both companies. -/
def Repository.GetInvoice (id : Nat) (db : DB) : Option Invoice :=
  (db.invoices.find? (fun r => r.ID == id)).map (fun row =>
    { row with
      InvoiceLines := (db.invoiceLines.filter (fun l => l.InvoiceID == id)).map (preloadLine db),
      RemitInformation :=
        ((db.remits.find? (fun r => r.ID == row.RemitInformationID)).map (fun rem =>
          { rem with Lines := db.remitLines.filter (fun l => l.RemitInformationID == rem.ID) })).getD
          RemitInformation.zero,
      Company := (db.companies.find? (fun c => c.ID == row.CompanyID)).getD Company.zero,
      Client := (db.companies.find? (fun c => c.ID == row.ClientID)).getD Company.zero })

/-- `func (r *Repository) CreateInvoice(invoice *Invoice)`:
`db.Create` runs the `BeforeCreate` hook (UUID assignment, with the
externally generated value passed in as `fresh`), inserts the row
(auto-assigning the primary key when unset) and inserts its
`InvoiceLines` association.  Returns the store and the saved invoice
(gorm mutates the caller's struct in place). -/
def Repository.CreateInvoice (fresh : Nat) (invoice : Invoice) (db : DB) : DB × Invoice :=
  let hooked := Invoice.BeforeCreate fresh invoice
  let withId := { hooked with ID := if hooked.ID = 0 then db.nextId else hooked.ID }
  let newLines := numberLines (db.nextId + 1) withId.ID withId.InvoiceLines
  ({ db with
      invoices := db.invoices ++ [withId],
      invoiceLines := db.invoiceLines ++ newLines,
      nextId := db.nextId + 1 + newLines.length },
   withId)

/-- `func (r *Repository) UpdateInvoice(invoice *Invoice)`:
inside `db.Transaction`, first `Delete(&InvoiceLine{})` for
`invoice_id = invoice.ID`, then `Save(invoice)` (row upsert plus insert
of the replacement lines).  `ok1`/`ok2` say whether each primitive call
succeeds; on failure the transaction rolls back, leaving the store as
it was. -/
def Repository.UpdateInvoice (ok1 ok2 : Bool) (invoice : Invoice) (db : DB) :
    Option String × DB :=
  if !ok1 then (some dbErrorMsg, db) else
  let db1 := { db with invoiceLines := db.invoiceLines.filter (fun l => !(l.InvoiceID == invoice.ID)) }
  if !ok2 then (some dbErrorMsg, db) else
  let newLines := numberLines db1.nextId invoice.ID invoice.InvoiceLines
  (none, { db1 with
      invoices := upsertInvoiceRow invoice db1.invoices,
      invoiceLines := db1.invoiceLines ++ newLines,
      nextId := db1.nextId + newLines.length })

/-- `func (r *Repository) DeleteInvoice(id uint)`: two gorm calls with
no surrounding transaction — first `Delete(&InvoiceLine{})` for
`invoice_id = id`, then `Delete(&Invoice{}, id)` (whose declared
`OnDelete:CASCADE` would also drop any remaining lines of this
invoice).  A failure of the second call leaves the first one's effect
in place. -/
def Repository.DeleteInvoice (ok1 ok2 : Bool) (id : Nat) (db : DB) : Option String × DB :=
  if !ok1 then (some dbErrorMsg, db) else
  let db1 := { db with invoiceLines := db.invoiceLines.filter (fun l => !(l.InvoiceID == id)) }
  if !ok2 then (some dbErrorMsg, db1) else
  (none, { db1 with
      invoices := db1.invoices.filter (fun r => !(r.ID == id)),
      invoiceLines := db1.invoiceLines.filter (fun l => !(l.InvoiceID == id)) })

/-- `func (r *Repository) DeleteRemitInformation(id uint)`: two gorm
calls with no surrounding transaction — first `Delete` of the lines
with `remit_information_id = id`, then `Delete(&RemitInformation{}, id)`.
The remit row delete cascades (declared `OnDelete:CASCADE` on
`Invoice.RemitInformation`) to the invoices referencing it and, through
the invoice-line cascade, to their lines. -/
def Repository.DeleteRemitInformation (ok1 ok2 : Bool) (id : Nat) (db : DB) :
    Option String × DB :=
  if !ok1 then (some dbErrorMsg, db) else
  let db1 := { db with remitLines := db.remitLines.filter (fun l => !(l.RemitInformationID == id)) }
  if !ok2 then (some dbErrorMsg, db1) else
  (none, { db1 with
      remits := db1.remits.filter (fun r => !(r.ID == id)),
      invoices := db1.invoices.filter (fun i => !(i.RemitInformationID == id)),
      invoiceLines := db1.invoiceLines.filter (fun l =>
        !(db1.invoices.any (fun i => i.ID == l.InvoiceID && i.RemitInformationID == id))) })

/-- `func (r *Repository) DeleteProduct(id uint)`: a single
`Delete(&Product{}, id)` (`Select(clause.Associations)` adds nothing —
`Product` declares no associations).  The `OnDelete:RESTRICT` action
declared on `InvoiceLine.Product` rejects the delete while any line
references the product, leaving the store unchanged. -/
def Repository.DeleteProduct (id : Nat) (db : DB) : Option String × DB :=
  if db.invoiceLines.any (fun l => l.ProductID == id) then
    (some fkRestrictMsg, db)
  else
    (none, { db with products := db.products.filter (fun p => !(p.ID == id)) })

/-- `func (r *Repository) DeleteCompany(id uint)`: a single
`Delete(&Company{}, id)` (`Select(clause.Associations)` adds nothing —
`Company` declares no associations).  The `OnDelete:CASCADE` actions
declared on `Invoice.Company` and `Invoice.Client` cascade the delete to
every invoice referencing the company as issuer or client, and from
there to those invoices' lines. -/
def Repository.DeleteCompany (id : Nat) (db : DB) : Option String × DB :=
  (none, { db with
      companies := db.companies.filter (fun c => !(c.ID == id)),
      invoices := db.invoices.filter (fun i => !(i.CompanyID == id || i.ClientID == id)),
      invoiceLines := db.invoiceLines.filter (fun l =>
        !(db.invoices.any (fun i =>
          i.ID == l.InvoiceID && (i.CompanyID == id || i.ClientID == id)))) })

/-- Replace every non-overlapping occurrence of `pat` in the character
list by `sub`, scanning left to right — the semantics of Go
`strings.ReplaceAll` for a nonempty pattern.  `fuel` bounds the
recursion (each step consumes at least one character, so the caller
passes the list's length). -/
def replaceAllAux (pat sub : List Char) : Nat → List Char → List Char
  | 0, s => s
  | _ + 1, [] => []
  | fuel + 1, c :: cs =>
    if pat.isPrefixOf (c :: cs) then
      sub ++ replaceAllAux pat sub fuel ((c :: cs).drop pat.length)
    else
      c :: replaceAllAux pat sub fuel cs

/-- Go `strings.ReplaceAll(s, pat, sub)` (the empty-pattern case, which
the repository never exercises, is left as the identity). -/
def goReplaceAll (s pat sub : String) : String :=
  if pat.data = [] then s else String.mk (replaceAllAux pat.data sub.data s.data.length s.data)

/-- Two-digit zero-padded decimal, as Go layout `01`/`02` renders the
month and day. -/
def pad2 (n : Nat) : String :=
  if n < 10 then "0" ++ toString n else toString n

/-- Four-digit zero-padded decimal, as Go layout `2006` renders the
year. -/
def pad4 (n : Nat) : String :=
  if n < 10 then "000" ++ toString n
  else if n < 100 then "00" ++ toString n
  else if n < 1000 then "0" ++ toString n
  else toString n

/-- Go `t.Format("20060102")`: the date as an `YYYYMMDD` digit string. -/
def formatYYYYMMDD (d : Date) : String :=
  pad4 d.Year ++ pad2 d.Month ++ pad2 d.Day

/-- The spec's reading of "whitespace stripped": every whitespace
character removed from the string. -/
def stripAllWhitespace (s : String) : String :=
  String.mk (s.data.filter (fun c => !c.isWhitespace))

/-- Removal of precisely the space character `U+0020`, for comparison
with what the code computes. -/
def removeSpaces (s : String) : String :=
  String.mk (s.data.filter (fun c => !(c == ' ')))

/-- `func (i *Invoice) Repr() string`:
`strings.ReplaceAll(i.Client.Name, " ", "")` followed by
`fmt.Sprintf` of the pattern name, `"_invoice_"`, and
`i.IssueDate.Format("20060102")`. -/
def Invoice.Repr (i : Invoice) : String :=
  goReplaceAll i.Client.Name " " "" ++ "_invoice_" ++ formatYYYYMMDD i.IssueDate

/-- The line fields the HTTP caller supplies and reads back — product
reference, quantity, description.  `ID` and `InvoiceID` are assigned by
the store, so "the same set of lines" for the replacement claims means
equality of these data. -/
def lineData (l : InvoiceLine) : Nat × Int × Option String :=
  (l.ProductID, l.Quantity, l.Description)

/-- Concrete calendar date for witnesses. -/
def sampleDate : Date := { Year := 2025, Month := 1, Day := 15 }

/-- Concrete company for witnesses. -/
def sampleCompany : Company :=
  { ID := 1, Name := "Acme Corp", Document := "12.345.678", Address := "1 Main St" }

/-- Concrete product for witnesses. -/
def sampleProduct : Product :=
  { ID := 7, Name := "Widget", Description := none, Price := 10 }

/-- Concrete invoice line (owned by invoice 10, referencing product 7). -/
def sampleLine : InvoiceLine :=
  { ID := 1, InvoiceID := 10, ProductID := 7, Product := sampleProduct,
    Quantity := 2, Description := none }

/-- Concrete remit information row for witnesses. -/
def sampleRemit : RemitInformation := { ID := 1, Name := "Bank", Lines := [] }

/-- Concrete remit line (owned by remit 1). -/
def sampleRemitLine : RemitInformationLine :=
  { ID := 1, Key := "bank", Value := "Test Bank", RemitInformationID := 1 }

/-- Concrete invoice (id 10, references company 1 on both sides, remit 1). -/
def sampleInvoice : Invoice :=
  { ID := 10, UUID := 5, Number := some 42, AdditionalInformation := none,
    Discount := 3, Penalty := 1, Paid := false, IssueDate := sampleDate,
    DueDate := sampleDate, RemitInformationID := 1, RemitInformation := sampleRemit,
    CompanyID := 1, Company := sampleCompany, ClientID := 1, Client := sampleCompany,
    InvoiceLines := [sampleLine] }

/-- Concrete second product for witnesses. -/
def sampleProduct2 : Product :=
  { ID := 8, Name := "Gadget", Description := none, Price := 5 }

/-- Concrete second invoice line (product 8, quantity 3). -/
def sampleLine2 : InvoiceLine :=
  { ID := 2, InvoiceID := 10, ProductID := 8, Product := sampleProduct2,
    Quantity := 3, Description := none }

/-- Concrete two-line invoice for the C1 witness. -/
def sampleInvoice2 : Invoice :=
  { ID := 10, UUID := 5, Number := some 42, AdditionalInformation := none,
    Discount := 3, Penalty := 1, Paid := false, IssueDate := sampleDate,
    DueDate := sampleDate, RemitInformationID := 1, RemitInformation := sampleRemit,
    CompanyID := 1, Company := sampleCompany, ClientID := 1, Client := sampleCompany,
    InvoiceLines := [sampleLine, sampleLine2] }

/-- Concrete invoice with neither a UUID nor a sequence number set. -/
def invZero : Invoice :=
  { sampleInvoice with ID := 0, UUID := 0, Number := none, InvoiceLines := [] }

/-- Concrete invoice whose client name contains a tab character. -/
def tabInvoice : Invoice :=
  { sampleInvoice with Client := { sampleCompany with Name := "Acme\tCo" } }

/-- Concrete store holding one of each entity, with the invoice
referencing the company, the remit information and (through its line)
the product. -/
def dbSample : DB :=
  { companies := [sampleCompany], products := [sampleProduct],
    remits := [sampleRemit], remitLines := [sampleRemitLine],
    invoices := [sampleInvoice], invoiceLines := [sampleLine], nextId := 20 }

/- Accumulating a sum by `foldl` is the sum of the mapped list. -/
theorem foldl_add_total (ls : List InvoiceLine) (acc : ℚ) :
    ls.foldl (fun a line => a + line.Total) acc = acc + (ls.map InvoiceLine.Total).sum := by
  induction ls generalizing acc with
  | nil => simp
  | cons l rest ih =>
    simp only [List.foldl_cons, List.map_cons, List.sum_cons, ih]
    ring

/-- The claim C1. For every Invoice, `Total()` is the sum over its lines of
the referenced product's price times the quantity, minus the discount, plus
the penalty; in particular for exactly two lines it is
`priceA*qtyA + priceB*qtyB - D + P`. -/
theorem claim_C1 :
    (∀ i : Invoice,
      i.Total = (i.InvoiceLines.map (fun l => l.Product.Price * (l.Quantity : ℚ))).sum
        - i.Discount + i.Penalty) ∧
    (∀ (i : Invoice) (a b : InvoiceLine), i.InvoiceLines = [a, b] →
      i.Total = a.Product.Price * (a.Quantity : ℚ) + b.Product.Price * (b.Quantity : ℚ)
        - i.Discount + i.Penalty) := by
  have general : ∀ i : Invoice,
      i.Total = (i.InvoiceLines.map (fun l => l.Product.Price * (l.Quantity : ℚ))).sum
        - i.Discount + i.Penalty := by
    intro i
    have h0 : i.SubTotal = (i.InvoiceLines.map InvoiceLine.Total).sum := by
      simpa using foldl_add_total i.InvoiceLines 0
    have h1 : (i.InvoiceLines.map InvoiceLine.Total).sum =
        (i.InvoiceLines.map (fun l => l.Product.Price * (l.Quantity : ℚ))).sum := rfl
    rw [Invoice.Total, h0, h1]
  refine ⟨general, ?_⟩
  intro i a b h
  rw [general i, h]
  simp [List.sum_cons]

/-- The claim C10. For an Invoice with no lines, `SubTotal()` is 0 and
`Total()` is penalty minus discount, which is negative whenever the
discount exceeds the penalty; nothing clamps the total at zero. -/
theorem claim_C10 :
    ∀ i : Invoice, i.InvoiceLines = [] →
      i.SubTotal = 0 ∧ i.Total = i.Penalty - i.Discount ∧
      (i.Penalty < i.Discount → i.Total < 0) := by
  intro i h
  have hs : i.SubTotal = 0 := by simp [Invoice.SubTotal, h]
  refine ⟨hs, ?_, ?_⟩
  · simp [Invoice.Total, hs]; ring
  · intro hlt
    simp [Invoice.Total, hs]
    linarith

/- Filtering by `p` after keeping only the elements refuting `p` yields
nothing. -/
theorem filter_after_filter_not {α : Type} (p : α → Bool) (l : List α) :
    (l.filter (fun x => !(p x))).filter p = [] := by
  induction l with
  | nil => rfl
  | cons a rest ih => cases h : p a <;> simp [List.filter_cons, h, ih]

/- No element satisfying `p` survives a filter keeping the elements
refuting `p`. -/
theorem any_filter_not {α : Type} (p : α → Bool) (l : List α) :
    (l.filter (fun x => !(p x))).any p = false := by
  induction l with
  | nil => rfl
  | cons a rest ih => cases h : p a <;> simp [List.filter_cons, h, ih]

/- In-place row replacement finds the replacement. -/
theorem find?_replaceRow (v : Invoice) (rows : List Invoice)
    (h : rows.any (fun r => r.ID == v.ID) = true) :
    (rows.map (fun r => if r.ID == v.ID then v else r)).find?
      (fun r => r.ID == v.ID) = some v := by
  induction rows with
  | nil => cases h
  | cons a rest ih =>
    rw [List.map_cons]
    cases ha : (a.ID == v.ID) with
    | true =>
      rw [if_pos rfl]
      exact List.find?_cons_of_pos _ (by simp)
    | false =>
      have hrest : rest.any (fun r => r.ID == v.ID) = true := by
        rw [List.any_cons, ha] at h
        simpa using h
      rw [if_neg Bool.false_ne_true, List.find?_cons_of_neg _ (by simp [ha]), ih hrest]

/- Appending a fresh row after rows that all miss the key finds the
fresh row. -/
theorem find?_append_new (v : Invoice) (rows : List Invoice)
    (h : rows.any (fun r => r.ID == v.ID) = false) :
    ((rows ++ [v]).find? (fun r => r.ID == v.ID)) = some v := by
  induction rows with
  | nil => simp [List.find?_cons]
  | cons a rest ih =>
    have ha : (a.ID == v.ID) = false := by
      cases hx : (a.ID == v.ID) with
      | true => rw [List.any_cons, hx] at h; simp at h
      | false => rfl
    have hrest : rest.any (fun r => r.ID == v.ID) = false := by
      rw [List.any_cons, ha] at h; simpa using h
    simpa [List.find?_cons, ha] using ih hrest

/- `upsertInvoiceRow` always makes the saved row the one found by its
primary key. -/
theorem find?_upsertInvoiceRow (v : Invoice) (rows : List Invoice) :
    ((upsertInvoiceRow v rows).find? (fun r => r.ID == v.ID)) = some v := by
  unfold upsertInvoiceRow
  cases h : rows.any (fun r => r.ID == v.ID) with
  | true => simpa [h] using find?_replaceRow v rows h
  | false => simpa [h] using find?_append_new v rows h

/- Every line produced by `numberLines` carries the owning invoice id. -/
theorem numberLines_filter (startId invId : Nat) (ls : List InvoiceLine) :
    ((numberLines startId invId ls).filter (fun l => l.InvoiceID == invId)) =
      numberLines startId invId ls := by
  induction ls generalizing startId with
  | nil => rfl
  | cons l rest ih => simp [numberLines, List.filter_cons, ih]

/- Assigning ids leaves the caller-visible line fields unchanged. -/
theorem numberLines_map_lineData (startId invId : Nat) (ls : List InvoiceLine) :
    ((numberLines startId invId ls).map lineData) = ls.map lineData := by
  induction ls generalizing startId with
  | nil => rfl
  | cons l rest ih => simp [numberLines, lineData, ih]

/- Preloading the product association leaves the caller-visible line
fields unchanged. -/
theorem map_preload_lineData (db : DB) (ls : List InvoiceLine) :
    ((ls.map (preloadLine db)).map lineData) = ls.map lineData := by
  induction ls with
  | nil => rfl
  | cons l rest ih => simp [preloadLine, lineData, ih]

/-- The claim C2. Updating an existing invoice with replacement line set
`Y` and then reading it back returns exactly the lines `Y` (the
caller-visible fields, in order), never the union with the old set; and
the delete-then-save runs inside one transaction, so every failing
execution leaves the store exactly as it was — no partially replaced
line set is observable. -/
theorem claim_C2 :
    (∀ (db : DB) (invoice : Invoice),
      (Repository.UpdateInvoice true true invoice db).1 = none ∧
      ∃ got : Invoice,
        Repository.GetInvoice invoice.ID (Repository.UpdateInvoice true true invoice db).2 =
          some got ∧
        got.InvoiceLines.map lineData = invoice.InvoiceLines.map lineData) ∧
    (∀ (db : DB) (invoice : Invoice) (ok1 ok2 : Bool),
      ((Repository.UpdateInvoice ok1 ok2 invoice db).1).isSome = true →
      (Repository.UpdateInvoice ok1 ok2 invoice db).2 = db) := by
  constructor
  · intro db invoice
    refine ⟨rfl, ?_⟩
    have hdb : (Repository.UpdateInvoice true true invoice db).2 =
        { db with
          invoices := upsertInvoiceRow invoice db.invoices,
          invoiceLines :=
            db.invoiceLines.filter (fun l => !(l.InvoiceID == invoice.ID))
              ++ numberLines db.nextId invoice.ID invoice.InvoiceLines,
          nextId :=
            db.nextId + (numberLines db.nextId invoice.ID invoice.InvoiceLines).length } := rfl
    rw [hdb]
    unfold Repository.GetInvoice
    dsimp only
    rw [find?_upsertInvoiceRow]
    refine ⟨_, rfl, ?_⟩
    dsimp only
    simp only [List.filter_append, filter_after_filter_not, List.nil_append,
      numberLines_filter, map_preload_lineData, numberLines_map_lineData]
  · intro db invoice ok1 ok2 h
    cases ok1 with
    | false => rfl
    | true =>
      cases ok2 with
      | false => rfl
      | true => simp [Repository.UpdateInvoice] at h

/-- The claim C3. A product referenced by at least one existing invoice
line cannot be deleted: `DeleteProduct` reports an error (the
`OnDelete:RESTRICT` action declared on `InvoiceLine.Product`), the
store is unchanged, and both the product and the referencing line are
still present. -/
theorem claim_C3 :
    ∀ (db : DB) (pid : Nat),
      db.products.any (fun p => p.ID == pid) = true →
      db.invoiceLines.any (fun l => l.ProductID == pid) = true →
      ((Repository.DeleteProduct pid db).1).isSome = true ∧
      (Repository.DeleteProduct pid db).2 = db ∧
      ((Repository.DeleteProduct pid db).2.products.any (fun p => p.ID == pid)) = true ∧
      ((Repository.DeleteProduct pid db).2.invoiceLines.any
        (fun l => l.ProductID == pid)) = true := by
  intro db pid hp hl
  unfold Repository.DeleteProduct
  rw [hl]
  exact ⟨rfl, rfl, hp, hl⟩

/-- Witness for C3: in the concrete store, product 7 is referenced by an
invoice line, its delete errors and changes nothing. -/
theorem claim_C3_witness :
    ((Repository.DeleteProduct 7 dbSample).1).isSome = true ∧
    (Repository.DeleteProduct 7 dbSample).2 = dbSample ∧
    ((Repository.DeleteProduct 7 dbSample).2.products.any (fun p => p.ID == 7)) = true ∧
    ((Repository.DeleteProduct 7 dbSample).2.invoiceLines.any
      (fun l => l.ProductID == 7)) = true :=
  claim_C3 dbSample 7 (by decide) (by decide)

/-- Counterexample to C4 as stated: in the concrete store, company 1 is
referenced by invoice 10 (as both issuer and client), yet
`DeleteCompany 1` reports no error and afterwards the invoice is gone —
the delete cascades instead of failing. -/
theorem claim_C4_counterexample :
    (dbSample.invoices.any (fun i => i.CompanyID == 1 || i.ClientID == 1)) = true ∧
    (Repository.DeleteCompany 1 dbSample).1 = none ∧
    (Repository.DeleteCompany 1 dbSample).2.invoices = [] ∧
    (Repository.DeleteCompany 1 dbSample).2 ≠ dbSample := by
  refine ⟨by decide, rfl, by decide, by decide⟩

/-- The claim C4 as amended: deleting a company never fails; the
declared `OnDelete:CASCADE` actions on `Invoice.Company` and
`Invoice.Client` silently delete every invoice referencing the company
(as issuer or client) together with those invoices' lines, so that no
invoice referencing the company remains. -/
theorem claim_C4 :
    ∀ (db : DB) (cid : Nat),
      (Repository.DeleteCompany cid db).1 = none ∧
      ((Repository.DeleteCompany cid db).2.companies.any (fun c => c.ID == cid)) = false ∧
      ((Repository.DeleteCompany cid db).2.invoices.any
        (fun i => i.CompanyID == cid || i.ClientID == cid)) = false := by
  intro db cid
  refine ⟨rfl, ?_, ?_⟩
  · exact any_filter_not (fun c => c.ID == cid) db.companies
  · exact any_filter_not (fun i => i.CompanyID == cid || i.ClientID == cid) db.invoices

/-- Counterexample to C5 as stated: deleting remit information 1 with
the second primitive call failing reports an error, yet the store has
changed — the remit lines are already gone while the parent row
remains, because the two deletes are not wrapped in a transaction. -/
theorem claim_C5_counterexample :
    ((Repository.DeleteRemitInformation true false 1 dbSample).1).isSome = true ∧
    (Repository.DeleteRemitInformation true false 1 dbSample).2.remitLines = [] ∧
    dbSample.remitLines ≠ [] ∧
    ((Repository.DeleteRemitInformation true false 1 dbSample).2.remits.any
      (fun r => r.ID == 1)) = true := by
  refine ⟨rfl, by decide, by decide, by decide⟩

/-- The claim C5 as amended: invoice line replacement (`UpdateInvoice`)
is all-or-nothing — any failure leaves the store unchanged.  The two
cascade deletes are not transactional: what holds for them is that the
parent table is untouched whenever an error is reported (so a parent is
never deleted while its children remain), and on success both the
parent and all its children are gone; but a failure of the parent
delete after the child delete leaves the children removed while the
parent remains. -/
theorem claim_C5 :
    (∀ (db : DB) (invoice : Invoice) (ok1 ok2 : Bool),
      ((Repository.UpdateInvoice ok1 ok2 invoice db).1).isSome = true →
      (Repository.UpdateInvoice ok1 ok2 invoice db).2 = db) ∧
    (∀ (db : DB) (id : Nat) (ok1 ok2 : Bool),
      (((Repository.DeleteRemitInformation ok1 ok2 id db).1).isSome = true →
        (Repository.DeleteRemitInformation ok1 ok2 id db).2.remits = db.remits) ∧
      ((Repository.DeleteRemitInformation ok1 ok2 id db).1 = none →
        ((Repository.DeleteRemitInformation ok1 ok2 id db).2.remits.any
          (fun r => r.ID == id)) = false ∧
        ((Repository.DeleteRemitInformation ok1 ok2 id db).2.remitLines.any
          (fun l => l.RemitInformationID == id)) = false)) ∧
    (∀ (db : DB) (id : Nat) (ok1 ok2 : Bool),
      (((Repository.DeleteInvoice ok1 ok2 id db).1).isSome = true →
        (Repository.DeleteInvoice ok1 ok2 id db).2.invoices = db.invoices) ∧
      ((Repository.DeleteInvoice ok1 ok2 id db).1 = none →
        ((Repository.DeleteInvoice ok1 ok2 id db).2.invoices.any
          (fun i => i.ID == id)) = false ∧
        ((Repository.DeleteInvoice ok1 ok2 id db).2.invoiceLines.any
          (fun l => l.InvoiceID == id)) = false)) := by
  refine ⟨?_, ?_, ?_⟩
  · intro db invoice ok1 ok2 h
    cases ok1 with
    | false => rfl
    | true =>
      cases ok2 with
      | false => rfl
      | true => simp [Repository.UpdateInvoice] at h
  · intro db id ok1 ok2
    cases ok1 with
    | false => exact ⟨fun _ => rfl, fun h => by cases h⟩
    | true =>
      cases ok2 with
      | false => exact ⟨fun _ => rfl, fun h => by cases h⟩
      | true =>
        refine ⟨fun h => by simp [Repository.DeleteRemitInformation] at h, fun _ => ⟨?_, ?_⟩⟩
        · exact any_filter_not (fun r : RemitInformation => r.ID == id) db.remits
        · exact any_filter_not (fun l : RemitInformationLine => l.RemitInformationID == id)
            db.remitLines
  · intro db id ok1 ok2
    cases ok1 with
    | false => exact ⟨fun _ => rfl, fun h => by cases h⟩
    | true =>
      cases ok2 with
      | false => exact ⟨fun _ => rfl, fun h => by cases h⟩
      | true =>
        refine ⟨fun h => by simp [Repository.DeleteInvoice] at h, fun _ => ⟨?_, ?_⟩⟩
        · exact any_filter_not (fun i : Invoice => i.ID == id) db.invoices
        · exact any_filter_not (fun l : InvoiceLine => l.InvoiceID == id)
            (db.invoiceLines.filter (fun l => !(l.InvoiceID == id)))

/-- Witness for C5: concrete instances of each amended conjunct — a
failing update leaves the concrete store unchanged, and a successful
remit delete leaves no parent row 1. -/
theorem claim_C5_witness :
    (Repository.UpdateInvoice false true sampleInvoice dbSample).2 = dbSample ∧
    ((Repository.DeleteRemitInformation true true 1 dbSample).2.remits.any
      (fun r => r.ID == 1)) = false :=
  ⟨claim_C5.1 dbSample sampleInvoice false true (by decide),
   (((claim_C5.2.1) dbSample 1 true true).2 (by decide)).1⟩

/-- The claim C6. A successful delete of remit information leaves zero
remit lines carrying that parent id, and a successful delete of an
invoice leaves zero invoice lines carrying that invoice id. -/
theorem claim_C6 :
    ∀ (db : DB) (id : Nat),
      ((Repository.DeleteRemitInformation true true id db).1 = none ∧
        (((Repository.DeleteRemitInformation true true id db).2.remitLines.filter
          (fun l => l.RemitInformationID == id)).length) = 0) ∧
      ((Repository.DeleteInvoice true true id db).1 = none ∧
        (((Repository.DeleteInvoice true true id db).2.invoiceLines.filter
          (fun l => l.InvoiceID == id)).length) = 0) := by
  intro db id
  refine ⟨⟨rfl, ?_⟩, ⟨rfl, ?_⟩⟩
  · have h : (Repository.DeleteRemitInformation true true id db).2.remitLines =
        db.remitLines.filter (fun l => !(l.RemitInformationID == id)) := rfl
    rw [h, filter_after_filter_not]
    rfl
  · have h : (Repository.DeleteInvoice true true id db).2.invoiceLines =
        ((db.invoiceLines.filter (fun l => !(l.InvoiceID == id))).filter
          (fun l => !(l.InvoiceID == id))) := rfl
    rw [h, filter_after_filter_not]
    rfl

/-- The claim C7. `Identification()` returns the decimal string of the
sequence number when that number is present and non-zero, and otherwise
(absent or zero — zero is treated as unset) the string form of the
invoice's UUID. -/
theorem claim_C7 :
    ∀ invoice : Invoice,
      (∀ n : Int, invoice.Number = some n → n ≠ 0 →
        invoice.Identification = toString n) ∧
      (invoice.Number = none ∨ invoice.Number = some 0 →
        invoice.Identification = uuidString invoice.UUID) := by
  intro invoice
  constructor
  · intro n hn hnz
    simp [Invoice.Identification, hn, hnz]
  · rintro (h | h) <;> simp [Invoice.Identification, h]

/-- Witness for C7: the concrete invoice with number 42 renders "42",
and the concrete invoice with no number renders its UUID string. -/
theorem claim_C7_witness :
    sampleInvoice.Identification = toString (42 : Int) ∧
    invZero.Identification = uuidString invZero.UUID :=
  ⟨(claim_C7 sampleInvoice).1 42 rfl (by decide), (claim_C7 invZero).2 (Or.inl rfl)⟩

/-- The claim C8. Invoice creation assigns the unique identifier exactly
when unset: a zero UUID is replaced by the freshly generated one, a
caller-supplied non-zero UUID is kept; and under the generator's
contract (non-zero, non-repeating values) two invoices created without
identifiers receive distinct non-zero UUIDs. -/
theorem claim_C8 :
    (∀ (db : DB) (invoice : Invoice) (fresh : Nat), invoice.UUID = 0 →
      ((Repository.CreateInvoice fresh invoice db).2).UUID = fresh) ∧
    (∀ (db : DB) (invoice : Invoice) (fresh : Nat), invoice.UUID ≠ 0 →
      ((Repository.CreateInvoice fresh invoice db).2).UUID = invoice.UUID) ∧
    (∀ gen : Nat → Nat, (∀ n, gen n ≠ 0) → Function.Injective gen →
      ∀ (db : DB) (inv1 inv2 : Invoice), inv1.UUID = 0 → inv2.UUID = 0 →
        ((Repository.CreateInvoice (gen 0) inv1 db).2).UUID ≠ 0 ∧
        ((Repository.CreateInvoice (gen 1) inv2
          (Repository.CreateInvoice (gen 0) inv1 db).1).2).UUID ≠ 0 ∧
        ((Repository.CreateInvoice (gen 0) inv1 db).2).UUID ≠
          ((Repository.CreateInvoice (gen 1) inv2
            (Repository.CreateInvoice (gen 0) inv1 db).1).2).UUID) := by
  have huuid : ∀ (db : DB) (invoice : Invoice) (fresh : Nat),
      ((Repository.CreateInvoice fresh invoice db).2).UUID =
        (Invoice.BeforeCreate fresh invoice).UUID := by
    intro db invoice fresh
    rfl
  have hzero : ∀ (invoice : Invoice) (fresh : Nat), invoice.UUID = 0 →
      (Invoice.BeforeCreate fresh invoice).UUID = fresh := by
    intro invoice fresh h
    simp [Invoice.BeforeCreate, h]
  refine ⟨?_, ?_, ?_⟩
  · intro db invoice fresh h
    rw [huuid, hzero invoice fresh h]
  · intro db invoice fresh h
    rw [huuid]
    simp [Invoice.BeforeCreate, h]
  · intro gen hnz hinj db inv1 inv2 h1 h2
    rw [huuid, huuid, hzero inv1 (gen 0) h1, hzero inv2 (gen 1) h2]
    exact ⟨hnz 0, hnz 1, fun h => absurd (hinj h) (by simp)⟩

/-- Witness for C8: with the generator `n + 1`, two concrete creations
from the zero-UUID invoice yield distinct identifiers. -/
theorem claim_C8_witness :
    ((Repository.CreateInvoice 1 invZero dbSample).2).UUID ≠
      ((Repository.CreateInvoice 2 invZero
        (Repository.CreateInvoice 1 invZero dbSample).1).2).UUID :=
  (claim_C8.2.2 (fun n => n + 1) (fun n => Nat.succ_ne_zero n)
    (fun _ _ hab => Nat.succ_injective hab) dbSample invZero invZero rfl rfl).2.2

/- Replacing every occurrence of the one-character pattern `' '` by the
empty string is exactly the removal of the space characters. -/
theorem replaceAll_space (fuel : Nat) :
    ∀ s : List Char, s.length ≤ fuel →
      replaceAllAux [' '] [] fuel s = s.filter (fun c => !(c == ' ')) := by
  induction fuel with
  | zero =>
    intro s hs
    cases s with
    | nil => rfl
    | cons c cs => simp at hs
  | succ fuel ih =>
    intro s hs
    cases s with
    | nil => rfl
    | cons c cs =>
      have hlen : cs.length ≤ fuel := Nat.le_of_succ_le_succ hs
      by_cases hc : c = ' '
      · subst hc
        have hp : ([' '] : List Char).isPrefixOf (' ' :: cs) = true := by
          simp [List.isPrefixOf]
        simp [replaceAllAux, hp, List.filter_cons, ih cs hlen]
      · have hp : ([' '] : List Char).isPrefixOf (c :: cs) = false := by
          simp [List.isPrefixOf]
          exact fun h => absurd h.symm hc
        simp [replaceAllAux, hp, List.filter_cons, hc, ih cs hlen]

/-- Counterexample to C9 as stated: for a client name containing a tab
character, `Repr()` keeps the tab — only space characters are removed,
not all whitespace. -/
theorem claim_C9_counterexample :
    tabInvoice.Repr ≠
      stripAllWhitespace tabInvoice.Client.Name ++ "_invoice_"
        ++ formatYYYYMMDD tabInvoice.IssueDate := by
  decide

/-- The claim C9 as amended: `Repr()` is the client company's name with
the space characters (`U+0020`, not all whitespace) removed, the
literal segment `"_invoice_"`, and the issue date as an `YYYYMMDD`
digit string. -/
theorem claim_C9 :
    ∀ invoice : Invoice,
      invoice.Repr =
        removeSpaces invoice.Client.Name ++ "_invoice_"
          ++ formatYYYYMMDD invoice.IssueDate := by
  intro invoice
  unfold Invoice.Repr goReplaceAll removeSpaces
  rw [if_neg (by decide)]
  have h : (" " : String).data = [' '] := rfl
  rw [h]
  have h2 : ("" : String).data = [] := rfl
  rw [h2, replaceAll_space _ _ (Nat.le_refl _)]

/-- Witness for C1 (its two-line part has a hypothesis): a concrete
invoice with lines (price 10, qty 2) and (price 5, qty 3), discount 3
and penalty 1 totals 10*2 + 5*3 - 3 + 1. -/
theorem claim_C1_witness :
    sampleInvoice2.Total = 10 * 2 + 5 * 3 - 3 + 1 := by
  have h := claim_C1.2 sampleInvoice2 sampleLine sampleLine2 rfl
  rw [h]
  norm_num [sampleLine, sampleLine2, sampleProduct, sampleProduct2, sampleInvoice2]

/-- Witness for C2 (its atomicity part has a hypothesis): the concrete
failing update leaves the concrete store unchanged. -/
theorem claim_C2_witness :
    (Repository.UpdateInvoice false false sampleInvoice dbSample).2 = dbSample :=
  claim_C2.2 dbSample sampleInvoice false false (by decide)

/-- Witness for C10: the concrete invoice with no lines, discount 3 and
penalty 1 has subtotal 0 and total -2, which is negative. -/
theorem claim_C10_witness :
    ({ sampleInvoice with InvoiceLines := [] } : Invoice).SubTotal = 0 ∧
    ({ sampleInvoice with InvoiceLines := [] } : Invoice).Total =
      ({ sampleInvoice with InvoiceLines := [] } : Invoice).Penalty -
        ({ sampleInvoice with InvoiceLines := [] } : Invoice).Discount ∧
    (({ sampleInvoice with InvoiceLines := [] } : Invoice).Penalty <
        ({ sampleInvoice with InvoiceLines := [] } : Invoice).Discount →
      ({ sampleInvoice with InvoiceLines := [] } : Invoice).Total < 0) :=
  claim_C10 { sampleInvoice with InvoiceLines := [] } rfl
